import Mathlib

/-!
Verification of the Gramofon support tools (gramofon_discovery.py,
gramofon_client.py, gramofon_config.py) against their natural-language
specification.

The Python code is shallowly embedded: JSON values become the inductive
type `Json` (JSON numbers are modelled as integers; none of the verified
code paths depends on fractional values), Python dicts decoded from JSON
become association lists with last-binding-wins lookup, Python exceptions
become `Except String`, and the HTTP transport becomes an oracle function
from the request (URL and JSON-RPC envelope) to a transport outcome.
-/

/-- A JSON value as decoded by Python's json module.  Objects are
association lists of string keys; Python dicts keep the last duplicate
key, so lookups below search the reversed list. -/
inductive Json where
  | null : Json
  | bool (b : Bool) : Json
  | num (n : Int) : Json
  | str (s : String) : Json
  | arr (xs : List Json) : Json
  | obj (kvs : List (String × Json)) : Json

mutual

/-- Structural equality of JSON values (Python == restricted to JSON
trees of the same primitive kind; cross-kind comparisons other than the
bool/int overlap handled by `pyEqZero` never occur in the verified paths
with `true` results). -/
def Json.beq : Json → Json → Bool
  | .null, .null => true
  | .bool a, .bool b => a == b
  | .num a, .num b => a == b
  | .str a, .str b => a == b
  | .arr xs, .arr ys => Json.beqList xs ys
  | .obj xs, .obj ys => Json.beqKVList xs ys
  | _, _ => false

/-- Elementwise equality of JSON arrays. -/
def Json.beqList : List Json → List Json → Bool
  | [], [] => true
  | x :: xs, y :: ys => Json.beq x y && Json.beqList xs ys
  | _, _ => false

/-- Elementwise equality of JSON object field lists. -/
def Json.beqKVList : List (String × Json) → List (String × Json) → Bool
  | [], [] => true
  | (k, v) :: xs, (l, w) :: ys => k == l && Json.beq v w && Json.beqKVList xs ys
  | _, _ => false

end

instance : BEq Json := ⟨Json.beq⟩

/-- Python truthiness of a JSON value: None, False, 0, "", [] and
empty dicts are falsy, everything else truthy. -/
def pyTruthy : Json → Bool
  | .null => false
  | .bool b => b
  | .num n => n != 0
  | .str s => s != ""
  | .arr xs => !xs.isEmpty
  | .obj kvs => !kvs.isEmpty

/-- Python `x == 0` for a JSON value x: true for the number 0 and for
False (Python treats booleans as integers). -/
def pyEqZero : Json → Bool
  | .num 0 => true
  | .bool false => true
  | _ => false

/-- Key lookup in a decoded JSON object.  Python's json decoder keeps
the last occurrence of a duplicated key, hence the reversal. -/
def jGet (kvs : List (String × Json)) (k : String) : Option Json :=
  kvs.reverse.lookup k

/-- Whether the string sub occurs as a contiguous substring of s
(Python's `sub in s` for strings). -/
def strContainsSub (s sub : String) : Bool :=
  (List.range (s.toList.length + 1)).any fun i =>
    sub.toList.isPrefixOf (s.toList.drop i)

/-- Python's `needle in j` for a string needle: key membership on dicts,
element membership on lists, substring test on strings, and a TypeError
on numbers, booleans and None. -/
def pyIn (needle : String) : Json → Except String Bool
  | .obj kvs => .ok (jGet kvs needle).isSome
  | .arr xs => .ok (xs.contains (.str needle))
  | .str s => .ok (strContainsSub s needle)
  | _ => .error "TypeError: argument is not iterable"

/-- Python's `j[k]` for a string key k: dict lookup (KeyError when the
key is absent), TypeError on every other kind of value. -/
def pyGetItem (j : Json) (k : String) : Except String Json :=
  match j with
  | .obj kvs =>
    match jGet kvs k with
    | some v => .ok v
    | none => .error "KeyError"
  | _ => .error "TypeError: value is not subscriptable"

/-- Python's `j.get(k, d)`: defaulting dict lookup, AttributeError when
the receiver is not a dict. -/
def pyDictGetD (j : Json) (k : String) (d : Json) : Except String Json :=
  match j with
  | .obj kvs => .ok ((jGet kvs k).getD d)
  | _ => .error "AttributeError: no method get"

/-- Python str() of a JSON value as interpolated into the URL f-string.
Session identifiers are strings on every verified path, so only the
`str` case matters; the remaining cases are a fixed rendering. -/
def pyStr : Json → String
  | .null => "None"
  | .bool true => "True"
  | .bool false => "False"
  | .num n => toString n
  | .str s => s
  | .arr _ => "[...]"
  | .obj _ => "[...]"

/-- Mutable state of a GramofonClient instance (gramofon_client.py and
gramofon_config.py, __init__): device address, request timeout and the
session identifier, None before login. -/
structure ClientState where
  device_ip : String
  timeout : Int
  session_id : Option Json

/-- Outcome of one requests.post call as seen by GramofonClient._call:
a raised requests.RequestException, some other raised exception, or a
response carrying its HTTP status (ok or not) and its decoded JSON body
(none when the body is not valid JSON, in which case response.json()
raises a requests JSONDecodeError, itself a RequestException). -/
inductive CTransp where
  | reqExn (msg : String) : CTransp
  | otherExn (msg : String) : CTransp
  | resp (httpOk : Bool) (body : Option Json) : CTransp

/-- Result of GramofonClient._call: a returned payload, or one of the
ways the call raises — GramofonAPIError wrapping a network failure,
GramofonAPIError for a response error field (carrying its code and
message), GramofonAPIError for a nonzero status code in result[0], or
an uncaught Python exception (TypeError, KeyError, AttributeError) on
envelope shapes the code never guards against. -/
inductive CRes where
  | ok (payload : Option Json) : CRes
  | netError (msg : String) : CRes
  | remoteError (code message : Option Json) : CRes
  | statusError (code : Json) : CRes
  | uncaught (msg : String) : CRes

/-- Result of GramofonClient.login: the session id on success, the
GramofonAPIError raised when the call succeeded but no session id was
returned, a propagated _call failure, or an uncaught exception from
the membership test or subscription on an odd payload. -/
inductive LoginRes where
  | okL (sid : Json) : LoginRes
  | authError : LoginRes
  | callFailed (e : CRes) : LoginRes
  | uncaughtL (msg : String) : LoginRes

/-- Transport oracle for a client: maps the request URL, the JSON-RPC
envelope and the timeout to the outcome of requests.post. -/
def COracle : Type := String → Json → Int → CTransp

/-- Parameter object of a session/login call. -/
def loginParams (username password : String) : Json :=
  .obj [("username", .str username), ("password", .str password)]

namespace Client

/-- GramofonClient._get_url (gramofon_client.py): the session id, or 32
zeros when it is None or falsy, spliced into the API URL. -/
def getUrl (st : ClientState) : String :=
  let sid :=
    match st.session_id with
    | some j => if pyTruthy j then pyStr j else "00000000000000000000000000000000"
    | none => "00000000000000000000000000000000"
  "http://" ++ st.device_ip ++ "/api/" ++ sid

/-- The JSON-RPC request envelope built by GramofonClient._call
(gramofon_client.py): fixed version, id 1, method "call", and params
[module, method, params or an empty object when params is None or
falsy]. -/
def envelope (module method : String) (params : Option Json) : Json :=
  let p :=
    match params with
    | none => Json.obj []
    | some j => if pyTruthy j then j else Json.obj []
  .obj [("jsonrpc", .str "2.0"), ("id", .num 1), ("method", .str "call"),
        ("params", .arr [.str module, .str method, p])]

/-- Decoding of an arrived JSON body by GramofonClient._call
(gramofon_client.py): raise on an error field (AttributeError when the
error field is not an object), otherwise read result (defaulting to an
empty list), raise on a nonzero result[0], and return result[1] when
present, else None.  Non-object bodies and non-list result fields end
in uncaught Python exceptions, except that a string result behaves like
a list of characters and an empty object like an empty list under
len(). -/
def decode (data : Json) : CRes :=
  match data with
  | .obj kvs =>
    match jGet kvs "error" with
    | some (.obj ekvs) => .remoteError (jGet ekvs "code") (jGet ekvs "message")
    | some _ => .uncaught "AttributeError: no method get"
    | none =>
      match jGet kvs "result" with
      | none => .ok none
      | some (.arr []) => .ok none
      | some (.arr (x :: rest)) =>
        if pyEqZero x then .ok rest.head? else .statusError x
      | some (.str s) =>
        if s = "" then .ok none else .statusError (.str (s.take 1))
      | some (.obj []) => .ok none
      | some (.obj (_ :: _)) => .uncaught "KeyError: 0"
      | some _ => .uncaught "TypeError: object has no len"
  | _ => .uncaught "TypeError: argument is not subscriptable or has no get"

/-- GramofonClient._call (gramofon_client.py): build the URL and the
envelope, post, turn any RequestException (including a failing
raise_for_status and a JSON decode failure) into a GramofonAPIError
network error, and decode the body. -/
def call (st : ClientState) (module method : String) (params : Option Json)
    (t : COracle) : CRes :=
  let url := getUrl st
  let body := envelope module method params
  match t url body st.timeout with
  | .reqExn msg => .netError msg
  | .otherExn msg => .uncaught msg
  | .resp false _ => .netError "HTTPError from raise_for_status"
  | .resp true none => .netError "JSONDecodeError from response.json"
  | .resp true (some data) => decode data

/-- GramofonClient.login (gramofon_client.py): call session/login; when
the payload is truthy and contains "sid", store and return it;
otherwise raise GramofonAPIError.  Failures of _call propagate and the
session id is not touched. -/
def login (username password : String) (st : ClientState) (t : COracle) :
    LoginRes × ClientState :=
  match call st "session" "login" (some (loginParams username password)) t with
  | .ok payload =>
    match payload with
    | none => (.authError, st)
    | some j =>
      if pyTruthy j then
        match pyIn "sid" j with
        | .error e => (.uncaughtL e, st)
        | .ok false => (.authError, st)
        | .ok true =>
          match pyGetItem j "sid" with
          | .error e => (.uncaughtL e, st)
          | .ok v => (.okL v, { st with session_id := some v })
      else (.authError, st)
  | .netError m => (.callFailed (.netError m), st)
  | .remoteError c m => (.callFailed (.remoteError c m), st)
  | .statusError c => (.callFailed (.statusError c), st)
  | .uncaught m => (.callFailed (.uncaught m), st)

end Client

namespace Config

/-- GramofonClient._get_url (gramofon_config.py), textually identical
to the gramofon_client.py copy. -/
def getUrl (st : ClientState) : String :=
  let sid :=
    match st.session_id with
    | some j => if pyTruthy j then pyStr j else "00000000000000000000000000000000"
    | none => "00000000000000000000000000000000"
  "http://" ++ st.device_ip ++ "/api/" ++ sid

/-- The JSON-RPC request envelope built by GramofonClient._call
(gramofon_config.py), textually identical to the gramofon_client.py
copy. -/
def envelope (module method : String) (params : Option Json) : Json :=
  let p :=
    match params with
    | none => Json.obj []
    | some j => if pyTruthy j then j else Json.obj []
  .obj [("jsonrpc", .str "2.0"), ("id", .num 1), ("method", .str "call"),
        ("params", .arr [.str module, .str method, p])]

/-- Body decoding of GramofonClient._call (gramofon_config.py),
textually identical to the gramofon_client.py copy. -/
def decode (data : Json) : CRes :=
  match data with
  | .obj kvs =>
    match jGet kvs "error" with
    | some (.obj ekvs) => .remoteError (jGet ekvs "code") (jGet ekvs "message")
    | some _ => .uncaught "AttributeError: no method get"
    | none =>
      match jGet kvs "result" with
      | none => .ok none
      | some (.arr []) => .ok none
      | some (.arr (x :: rest)) =>
        if pyEqZero x then .ok rest.head? else .statusError x
      | some (.str s) =>
        if s = "" then .ok none else .statusError (.str (s.take 1))
      | some (.obj []) => .ok none
      | some (.obj (_ :: _)) => .uncaught "KeyError: 0"
      | some _ => .uncaught "TypeError: object has no len"
  | _ => .uncaught "TypeError: argument is not subscriptable or has no get"

/-- GramofonClient._call (gramofon_config.py), textually identical to
the gramofon_client.py copy. -/
def call (st : ClientState) (module method : String) (params : Option Json)
    (t : COracle) : CRes :=
  let url := getUrl st
  let body := envelope module method params
  match t url body st.timeout with
  | .reqExn msg => .netError msg
  | .otherExn msg => .uncaught msg
  | .resp false _ => .netError "HTTPError from raise_for_status"
  | .resp true none => .netError "JSONDecodeError from response.json"
  | .resp true (some data) => decode data

/-- GramofonClient.login (gramofon_config.py), textually identical to
the gramofon_client.py copy up to its docstring. -/
def login (username password : String) (st : ClientState) (t : COracle) :
    LoginRes × ClientState :=
  match call st "session" "login" (some (loginParams username password)) t with
  | .ok payload =>
    match payload with
    | none => (.authError, st)
    | some j =>
      if pyTruthy j then
        match pyIn "sid" j with
        | .error e => (.uncaughtL e, st)
        | .ok false => (.authError, st)
        | .ok true =>
          match pyGetItem j "sid" with
          | .error e => (.uncaughtL e, st)
          | .ok v => (.okL v, { st with session_id := some v })
      else (.authError, st)
  | .netError m => (.callFailed (.netError m), st)
  | .remoteError c m => (.callFailed (.remoteError c m), st)
  | .statusError c => (.callFailed (.statusError c), st)
  | .uncaught m => (.callFailed (.uncaught m), st)

end Config

/-- Mutable state of a GramofonDevice instance
(gramofon_discovery.py, GramofonDevice.__init__): address, session id
and the lazily fetched name, MAC and status fields, all None at
construction. -/
structure DevState where
  ip : String
  session_id : Option Json
  name : Option Json
  mac : Option Json
  status : Option Json

/-- GramofonDevice.__init__ with the default session_id of None. -/
def initDev (ip : String) : DevState :=
  { ip := ip, session_id := none, name := none, mac := none, status := none }

/-- Outcome of one requests.post call as seen by GramofonDevice._call:
a raised exception (of any kind — the bare except swallows them all,
so no detail is needed), or a response whose decoded JSON body is none
when response.json() raises. -/
inductive DiscTransp where
  | exn : DiscTransp
  | resp (body : Option Json) : DiscTransp

/-- Transport oracle for the discovery tool: maps the request URL, the
JSON-RPC envelope and the timeout to the outcome of requests.post. -/
def Oracle : Type := String → Json → Int → DiscTransp

/-- The URL built by GramofonDevice._call (gramofon_discovery.py): the
session id, or 32 zeros when it is None or falsy, spliced into the API
URL of the device address. -/
def devUrl (st : DevState) : String :=
  let sid :=
    match st.session_id with
    | some j => if pyTruthy j then pyStr j else "00000000000000000000000000000000"
    | none => "00000000000000000000000000000000"
  "http://" ++ st.ip ++ "/api/" ++ sid

/-- The JSON-RPC request envelope built by GramofonDevice._call
(gramofon_discovery.py): fixed version, id 1, method "call", and params
[module, method, params or an empty object when params is None or
falsy]. -/
def devEnvelope (module method : String) (params : Option Json) : Json :=
  let p :=
    match params with
    | none => Json.obj []
    | some j => if pyTruthy j then j else Json.obj []
  .obj [("jsonrpc", .str "2.0"), ("id", .num 1), ("method", .str "call"),
        ("params", .arr [.str module, .str method, p])]

/-- Decoding of an arrived JSON body by GramofonDevice._call
(gramofon_discovery.py): None when an error field is present, the
payload (result[1], or an empty object when absent) when result is a
nonempty list whose first element equals 0, and None otherwise.  Every
shape on which the Python body would raise (membership test on a
number, len() of a number, KeyError on indexing a dict) is swallowed by
the bare except and also yields None. -/
def discDecode (data : Json) : Option Json :=
  match data with
  | .obj kvs =>
    if (jGet kvs "error").isSome then none
    else
      match jGet kvs "result" with
      | some (.arr (x :: rest)) =>
        if pyEqZero x then some (rest.headD (.obj [])) else none
      | _ => none
  | _ => none

/-- GramofonDevice._call (gramofon_discovery.py): build the URL and the
envelope, post, and decode; any raised exception (network failure,
JSON decode failure, or a decode-shape error) is caught by the bare
except and becomes None. -/
def device_call (o : Oracle) (st : DevState) (module method : String)
    (params : Option Json) (timeout : Int) : Option Json :=
  let url := devUrl st
  let body := devEnvelope module method params
  match o url body timeout with
  | .exn => none
  | .resp none => none
  | .resp (some data) => discDecode data

/-- GramofonDevice.login (gramofon_discovery.py): call session/login
with the credentials; when the result is truthy and contains "sid",
store it and return True, else return False.  The membership test or
the subscription can raise on odd payloads; the raise leaves the
session id untouched and propagates (to be caught by the probe). -/
def device_login (o : Oracle) (st : DevState) (username password : String) :
    Except String Bool × DevState :=
  match device_call o st "session" "login"
      (some (loginParams username password)) 5 with
  | none => (.ok false, st)
  | some j =>
    if pyTruthy j then
      match pyIn "sid" j with
      | .error e => (.error e, st)
      | .ok false => (.ok false, st)
      | .ok true =>
        match pyGetItem j "sid" with
        | .error e => (.error e, st)
        | .ok v => (.ok true, { st with session_id := some v })
    else (.ok false, st)

/-- First half of GramofonDevice.get_info (gramofon_discovery.py): call
anet/get_gramofonname and, when the result is truthy, store
result.get("spotifyname", "Unknown") as the name; a falsy or absent
result leaves the name as it was, and .get on a non-dict raises. -/
def infoNameStep (o : Oracle) (st : DevState) : Except String DevState :=
  match device_call o st "anet" "get_gramofonname" (some (.obj [])) 5 with
  | none => .ok st
  | some j =>
    if pyTruthy j then
      match pyDictGetD j "spotifyname" (.str "Unknown") with
      | .error e => .error e
      | .ok v => .ok { st with name := some v }
    else .ok st

/-- Second half of GramofonDevice.get_info (gramofon_discovery.py):
call mfgd/get_fonmac and, when the result is truthy, store
result.get("fonmac", "Unknown") as the MAC; a falsy or absent result
leaves the MAC as it was, and .get on a non-dict raises. -/
def infoMacStep (o : Oracle) (st : DevState) : Except String DevState :=
  match device_call o st "mfgd" "get_fonmac" (some (.obj [])) 5 with
  | none => .ok st
  | some j =>
    if pyTruthy j then
      match pyDictGetD j "fonmac" (.str "Unknown") with
      | .error e => .error e
      | .ok v => .ok { st with mac := some v }
    else .ok st

/-- GramofonDevice.get_info (gramofon_discovery.py): the name fetch,
then the MAC fetch, then True exactly when the name field is set. -/
def device_get_info (o : Oracle) (st : DevState) :
    Except String Bool × DevState :=
  match infoNameStep o st with
  | .error e => (.error e, st)
  | .ok st1 =>
    match infoMacStep o st1 with
    | .error e => (.error e, st1)
    | .ok st2 => (.ok st2.name.isSome, st2)

/-- check_ip_is_gramofon (gramofon_discovery.py): construct a device,
log in, and fetch its info; the device is returned only when login
returned True and get_info returned True, and any exception raised
along the way is caught by the enclosing try and yields None. -/
def check_ip_is_gramofon (o : Oracle) (ip : String) : Option DevState :=
  match device_login o (initDev ip) "admin" "admin" with
  | (.error _, _) => none
  | (.ok false, _) => none
  | (.ok true, st1) =>
    match device_get_info o st1 with
    | (.error _, _) => none
    | (.ok b, st2) => if b then some st2 else none

/-- Whether the login step of a probe of the given address succeeds
(GramofonDevice.login returns True rather than False or raising). -/
def probeLoginOk (o : Oracle) (ip : String) : Bool :=
  match device_login o (initDev ip) "admin" "admin" with
  | (.ok b, _) => b
  | (.error _, _) => false

/-- Whether the probe of the given address reaches get_info and
get_info returns True without raising. -/
def probeInfoOk (o : Oracle) (ip : String) : Bool :=
  match device_login o (initDev ip) "admin" "admin" with
  | (.ok true, st1) =>
    match device_get_info o st1 with
    | (.ok b, _) => b
    | (.error _, _) => false
  | _ => false

/-- Split a character list at every occurrence of the separator
character (the separator is dropped, empty pieces are kept). -/
def splitOnChar (c : Char) : List Char → List (List Char)
  | [] => [[]]
  | x :: xs =>
    if x = c then [] :: splitOnChar c xs
    else
      match splitOnChar c xs with
      | [] => [[x]]
      | g :: gs => (x :: g) :: gs

/-- Numeric value of a decimal digit sequence with Python's ipaddress
octet rules: nonempty, digits only, and no leading zero (except the
single digit 0). -/
def parseDecimal (s : List Char) : Option Nat :=
  match s with
  | [] => none
  | c :: cs =>
    if (c :: cs).all Char.isDigit && (c != '0' || cs.isEmpty) then
      some ((c :: cs).foldl (fun a d => a * 10 + (d.toNat - 48)) 0)
    else none

/-- One dotted-quad octet: a decimal value at most 255. -/
def parseOctet (s : List Char) : Option Nat :=
  match parseDecimal s with
  | some n => if n ≤ 255 then some n else none
  | none => none

/-- An IPv4 address in dotted-quad form as the 32-bit value it denotes. -/
def parseIPv4 (s : List Char) : Option Nat :=
  match (splitOnChar '.' s).mapM parseOctet with
  | some [a, b, c, d] => some (a * 16777216 + b * 65536 + c * 256 + d)
  | _ => none

/-- Modelled stdlib: ipaddress.ip_network(s, strict=False) restricted to
IPv4 inputs written as a dotted quad with an optional /prefix-length
(the forms the tool documents and its examples use).  Returns the
masked network base address and the prefix length; a bare address gets
prefix 32; anything else raises ValueError, modelled as none. -/
def parseNet (s : String) : Option (Nat × Nat) :=
  let toNet := fun (addr : List Char) (p : Nat) =>
    match parseIPv4 addr with
    | some base => some (base - base % 2 ^ (32 - p), p)
    | none => none
  match splitOnChar '/' s.toList with
  | [addr] => toNet addr 32
  | [addr, plen] =>
    match parseDecimal plen with
    | some p => if p ≤ 32 then toNet addr p else none
    | none => none
  | _ => none

/-- Modelled stdlib: the list of host addresses yielded by
ipaddress.IPv4Network.hosts() — all addresses of the block except the
network and broadcast addresses, except that a /31 yields both of its
addresses and a /32 yields its single address. -/
def hostsList (base p : Nat) : List Nat :=
  if p ≤ 30 then (List.range (2 ^ (32 - p) - 2)).map (fun i => base + 1 + i)
  else (List.range (2 ^ (32 - p))).map (fun i => base + i)

/-- Dotted-quad rendering of a 32-bit address (str() of an
IPv4Address). -/
def natToIpStr (n : Nat) : String :=
  toString (n / 16777216 % 256) ++ "." ++ toString (n / 65536 % 256) ++ "." ++
    toString (n / 256 % 256) ++ "." ++ toString (n % 256)

/-- What scan_network produced: how many probe futures were submitted
to the executor and the device list accumulated from the completed
futures. -/
structure ScanRes where
  dispatched : Nat
  found : List DevState

/-- scan_network (gramofon_discovery.py).  The thread pool is embedded
by two parameters: probe is check_ip_is_gramofon applied to a fixed
transport, and order is the completion order in which
concurrent.futures.as_completed yields the submitted futures — a
permutation of the host list (hypothesised in the theorems, since
as_completed yields every submitted future exactly once).  An invalid
network string raises ValueError inside ip_network; the except branch
prints an error and returns the empty list, so the function returns
normally and the error codomain is never used. -/
def scan_network (probe : String → Option DevState) (order : List Nat)
    (network : String) : Except String ScanRes :=
  match parseNet network with
  | none => .ok { dispatched := 0, found := [] }
  | some (base, p) =>
    let hosts := hostsList base p
    .ok { dispatched := hosts.length,
          found := order.filterMap (fun ip => probe (natToIpStr ip)) }

/-- Module name of a request, read back from its JSON-RPC envelope. -/
def moduleOf (env : Json) : Option String :=
  match env with
  | .obj [_, _, _, (_, .arr (.str m :: _))] => some m
  | _ => none

/-- A login response whose payload carries the session id "S". -/
def okLoginBody : Json :=
  .obj [("result", .arr [.num 0, .obj [("sid", .str "S")]])]

/-- Transport in which login succeeds and both info calls raise (for
example, time out). -/
def oracleLoginOnly : Oracle := fun _ env _ =>
  match moduleOf env with
  | some "session" => .resp (some okLoginBody)
  | _ => .exn

/-- Transport in which login and the name fetch succeed and the MAC
fetch raises. -/
def oracleNoMac : Oracle := fun _ env _ =>
  match moduleOf env with
  | some "session" => .resp (some okLoginBody)
  | some "anet" =>
    .resp (some (.obj [("result", .arr [.num 0, .obj [("spotifyname", .str "X")]])]))
  | _ => .exn

/-- Transport in which login and both info calls succeed. -/
def oracleFull : Oracle := fun _ env _ =>
  match moduleOf env with
  | some "session" => .resp (some okLoginBody)
  | some "anet" =>
    .resp (some (.obj [("result", .arr [.num 0, .obj [("spotifyname", .str "Kitchen")]])]))
  | some "mfgd" =>
    .resp (some (.obj [("result", .arr [.num 0, .obj [("fonmac", .str "AA:BB")]])]))
  | _ => .exn

/-- The device state that a fully successful probe of 192.168.1.5
through oracleFull produces. -/
def devFull : DevState :=
  { ip := "192.168.1.5", session_id := some (.str "S"),
    name := some (.str "Kitchen"), mac := some (.str "AA:BB"), status := none }

/-- A probe outcome function that answers positively for 192.168.1.5
and 192.168.1.9 only. -/
def probeTwo : String → Option DevState := fun s =>
  if s = "192.168.1.5" then some (initDev s)
  else if s = "192.168.1.9" then some (initDev s)
  else none

/-- A freshly constructed client for the default setup address. -/
def client0 : ClientState :=
  { device_ip := "192.168.10.1", timeout := 30, session_id := none }

/-- A transport whose login response reports status 0 with a session
id "S". -/
def tLoginOk : COracle := fun _ _ _ => .resp true (some okLoginBody)

/-- Helper: GramofonDevice.login either leaves the device state alone
or only writes the session id. -/
theorem device_login_snd (o : Oracle) (st : DevState) (u p : String) :
    (device_login o st u p).2 = st ∨
    ∃ v, (device_login o st u p).2 = { st with session_id := some v } := by
  unfold device_login
  split
  · exact Or.inl rfl
  · split
    · split
      · exact Or.inl rfl
      · exact Or.inl rfl
      · split
        · exact Or.inl rfl
        · exact Or.inr ⟨_, rfl⟩
    · exact Or.inl rfl

/-- Helper: the name step of get_info either leaves the state alone or
only writes the name field. -/
theorem infoNameStep_snd (o : Oracle) (st st' : DevState)
    (h : infoNameStep o st = .ok st') :
    st' = st ∨ ∃ v, st' = { st with name := some v } := by
  unfold infoNameStep at h
  split at h
  · exact Or.inl (Except.ok.inj h).symm
  · split at h
    · split at h
      · exact absurd h (by simp)
      · exact Or.inr ⟨_, (Except.ok.inj h).symm⟩
    · exact Or.inl (Except.ok.inj h).symm

/-- Helper: the MAC step of get_info either leaves the state alone or
only writes the MAC field. -/
theorem infoMacStep_snd (o : Oracle) (st st' : DevState)
    (h : infoMacStep o st = .ok st') :
    st' = st ∨ ∃ v, st' = { st with mac := some v } := by
  unfold infoMacStep at h
  split at h
  · exact Or.inl (Except.ok.inj h).symm
  · split at h
    · split at h
      · exact absurd h (by simp)
      · exact Or.inr ⟨_, (Except.ok.inj h).symm⟩
    · exact Or.inl (Except.ok.inj h).symm

/-- Helper: login does not change the address field. -/
theorem device_login_ip (o : Oracle) (st : DevState) (u p : String) :
    ((device_login o st u p).2).ip = st.ip := by
  rcases device_login_snd o st u p with h | ⟨v, h⟩ <;> rw [h]

/-- Helper: login does not change the MAC field. -/
theorem device_login_mac (o : Oracle) (st : DevState) (u p : String) :
    ((device_login o st u p).2).mac = st.mac := by
  rcases device_login_snd o st u p with h | ⟨v, h⟩ <;> rw [h]

/-- Helper: the name step does not change the address or MAC fields. -/
theorem infoNameStep_ip_mac (o : Oracle) (st st' : DevState)
    (h : infoNameStep o st = .ok st') : st'.ip = st.ip ∧ st'.mac = st.mac := by
  rcases infoNameStep_snd o st st' h with h2 | ⟨v, h2⟩ <;> rw [h2] <;> exact ⟨rfl, rfl⟩

/-- Helper: the MAC step does not change the address field. -/
theorem infoMacStep_ip (o : Oracle) (st st' : DevState)
    (h : infoMacStep o st = .ok st') : st'.ip = st.ip := by
  rcases infoMacStep_snd o st st' h with h2 | ⟨v, h2⟩ <;> rw [h2]

/-- Helper: get_info does not change the address field. -/
theorem device_get_info_ip (o : Oracle) (st : DevState) :
    ((device_get_info o st).2).ip = st.ip := by
  unfold device_get_info
  split
  · rfl
  next st1 hName =>
    split
    · exact (infoNameStep_ip_mac o st st1 hName).1
    next st2 hMac =>
      exact (infoMacStep_ip o st1 st2 hMac).trans (infoNameStep_ip_mac o st st1 hName).1

/-- C9: the two duplicate GramofonClient implementations agree at the
transport layer — for every client state, module, method, parameter
object and transport behaviour, gramofon_client.py's _call and
gramofon_config.py's _call build the same URL and the same request
envelope and produce the same result or raise the same error. -/
theorem c9_clients_extensionally_equal (st : ClientState)
    (module method : String) (params : Option Json) (t : COracle) :
    Client.getUrl st = Config.getUrl st ∧
    Client.envelope module method params = Config.envelope module method params ∧
    Client.call st module method params t = Config.call st module method params t := by
  exact ⟨rfl, rfl, rfl⟩

/-- C2 counterexample: on the invalid range string "not-a-network",
scan_network does not propagate any error — the ValueError is caught
inside it and it returns normally with an empty device list and zero
probes dispatched, contradicting the claim that a ConfigError
propagates to the caller. -/
theorem c2_counterexample_no_error_propagates :
    scan_network (fun _ => none) [] "not-a-network" =
      Except.ok { dispatched := 0, found := [] } := rfl

/-- C2 (amended): for every invalid network-range string, scan_network
catches the ValueError internally and returns normally with an empty
device list and zero probes dispatched; no error propagates to the
caller. -/
theorem c2_invalid_network_returns_empty (probe : String → Option DevState)
    (order : List Nat) (network : String) (h : parseNet network = none) :
    scan_network probe order network = Except.ok { dispatched := 0, found := [] } := by
  unfold scan_network
  rw [h]

/-- C2 witness: the amended statement at the concrete invalid range
"999.1.2.3/24". -/
theorem c2_witness :
    scan_network (fun _ => none) [] "999.1.2.3/24" =
      Except.ok { dispatched := 0, found := [] } :=
  c2_invalid_network_returns_empty (fun _ => none) [] "999.1.2.3/24" rfl

/-- C6 counterexample: for the valid CIDR range 10.0.0.0/31 the scanner
dispatches 2 probes, not the 0 usable hosts that excluding the network
and broadcast addresses would give, so the claimed count is wrong on
/31 ranges. -/
theorem c6_counterexample_slash31 :
    scan_network (fun _ => none) [] "10.0.0.0/31" =
      Except.ok { dispatched := 2, found := [] } ∧ (2 : Nat) ≠ 2 ^ (32 - 31) - 2 :=
  ⟨rfl, by decide⟩

/-- C6 (amended): for every valid CIDR range of prefix length at most
30, the number of probes dispatched equals the number of usable host
addresses, network and broadcast excluded; a /31 range dispatches both
of its 2 addresses and a /32 its single address, following
ipaddress.hosts(). -/
theorem c6_dispatch_count (probe : String → Option DevState) (order : List Nat)
    (network : String) (base p : Nat) (h : parseNet network = some (base, p)) :
    ∃ r, scan_network probe order network = Except.ok r ∧
      r.dispatched = if p ≤ 30 then 2 ^ (32 - p) - 2 else 2 ^ (32 - p) := by
  unfold scan_network
  rw [h]
  refine ⟨_, rfl, ?_⟩
  unfold hostsList
  split <;> simp

/-- C6 witness: a /24 range dispatches 254 probes and a /30 range
dispatches 2. -/
theorem c6_witness :
    (∃ r, scan_network (fun _ => none) [] "192.168.1.0/24" = Except.ok r ∧
       r.dispatched = 254) ∧
    (∃ r, scan_network (fun _ => none) [] "192.168.1.0/30" = Except.ok r ∧
       r.dispatched = 2) := by
  constructor
  · obtain ⟨r, h1, h2⟩ :=
      c6_dispatch_count (fun _ => none) [] "192.168.1.0/24" 3232235776 24 rfl
    exact ⟨r, h1, h2.trans (by norm_num)⟩
  · obtain ⟨r, h1, h2⟩ :=
      c6_dispatch_count (fun _ => none) [] "192.168.1.0/30" 3232235776 30 rfl
    exact ⟨r, h1, h2.trans (by norm_num)⟩

/-- C4: the probe is total at its public interface — for every address
and every transport behaviour (timeout, connection refused, malformed
response, remote error, or any response shape at all),
check_ip_is_gramofon returns one of exactly two shapes, NotFound
(None) or Found with a device summary carrying the probed address, and
never lets an error escape to its caller. -/
theorem c4_probe_total (o : Oracle) (ip : String) :
    check_ip_is_gramofon o ip = none ∨
    ∃ st, check_ip_is_gramofon o ip = some st ∧ st.ip = ip := by
  unfold check_ip_is_gramofon
  rcases hL : device_login o (initDev ip) "admin" "admin" with ⟨res, st1⟩
  have hip1 : st1.ip = ip := by
    have := device_login_ip o (initDev ip) "admin" "admin"
    rw [hL] at this
    exact this
  cases res with
  | error e => exact Or.inl rfl
  | ok b =>
    cases b with
    | false => exact Or.inl rfl
    | true =>
      dsimp only
      rcases hG : device_get_info o st1 with ⟨gres, st2⟩
      have hip2 : st2.ip = ip := by
        have := device_get_info_ip o st1
        rw [hG] at this
        exact this.trans hip1
      cases gres with
      | error e => exact Or.inl rfl
      | ok g =>
        cases g with
        | false => exact Or.inl rfl
        | true => exact Or.inr ⟨st2, rfl, hip2⟩

/-- C1 counterexample: a transport on which the probe's login call
succeeds but the follow-up info calls fail classifies the address as
NotFound (None), not Found, so login success alone is not the
discovery signal. -/
theorem c1_counterexample_login_not_enough :
    probeLoginOk oracleLoginOnly "192.168.1.5" = true ∧
    check_ip_is_gramofon oracleLoginOnly "192.168.1.5" = none :=
  ⟨rfl, rfl⟩

/-- C1 (amended): the probe classifies an address as Found exactly when
its login call succeeds and the follow-up get_info step completes
returning True (which requires the name fetch to yield a usable
payload); a failed name fetch downgrades the address to NotFound even
though login succeeded. -/
theorem c1_found_iff_login_and_info (o : Oracle) (ip : String) :
    (check_ip_is_gramofon o ip).isSome =
      (probeLoginOk o ip && probeInfoOk o ip) := by
  unfold check_ip_is_gramofon probeLoginOk probeInfoOk
  rcases hL : device_login o (initDev ip) "admin" "admin" with ⟨res, st1⟩
  cases res with
  | error e => rfl
  | ok b =>
    cases b with
    | false => rfl
    | true =>
      dsimp only
      rcases hG : device_get_info o st1 with ⟨gres, st2⟩
      cases gres with
      | error e => rfl
      | ok g => cases g with
        | false => rfl
        | true => rfl

/-- C10: login updates the stored session token atomically, in both
the gramofon_client.py client and the discovery tool's GramofonDevice —
either login succeeds with a token and the session id becomes exactly
that token, or login fails (network error, remote error, missing
token, or an uncaught exception) and the whole client state, session
id included, is left unchanged. -/
theorem c10_login_session_atomic (u p : String) (st : ClientState)
    (t : COracle) (o : Oracle) (dst : DevState) (du dp : String) :
    ((∃ v, Client.login u p st t = (.okL v, { st with session_id := some v })) ∨
     (∃ r, Client.login u p st t = (r, st) ∧ ∀ v, r ≠ .okL v)) ∧
    ((∃ v, device_login o dst du dp = (.ok true, { dst with session_id := some v })) ∨
     (∃ r, device_login o dst du dp = (r, dst) ∧ r ≠ .ok true)) := by
  constructor
  · unfold Client.login
    split
    · split
      · exact Or.inr ⟨_, rfl, fun v h => LoginRes.noConfusion h⟩
      · split
        · split
          · exact Or.inr ⟨_, rfl, fun v h => LoginRes.noConfusion h⟩
          · exact Or.inr ⟨_, rfl, fun v h => LoginRes.noConfusion h⟩
          · split
            · exact Or.inr ⟨_, rfl, fun v h => LoginRes.noConfusion h⟩
            · exact Or.inl ⟨_, rfl⟩
        · exact Or.inr ⟨_, rfl, fun v h => LoginRes.noConfusion h⟩
    · exact Or.inr ⟨_, rfl, fun v h => LoginRes.noConfusion h⟩
    · exact Or.inr ⟨_, rfl, fun v h => LoginRes.noConfusion h⟩
    · exact Or.inr ⟨_, rfl, fun v h => LoginRes.noConfusion h⟩
    · exact Or.inr ⟨_, rfl, fun v h => LoginRes.noConfusion h⟩
  · unfold device_login
    split
    · exact Or.inr ⟨_, rfl, fun h => by cases h⟩
    · split
      · split
        · exact Or.inr ⟨_, rfl, fun h => Except.noConfusion h⟩
        · exact Or.inr ⟨_, rfl, fun h => by cases Except.ok.inj h⟩
        · split
          · exact Or.inr ⟨_, rfl, fun h => Except.noConfusion h⟩
          · exact Or.inl ⟨_, rfl⟩
      · exact Or.inr ⟨_, rfl, fun h => by cases Except.ok.inj h⟩

/-- C8 counterexample: on a transport where login and the name fetch
succeed but the MAC fetch fails, the probe returns Found with the MAC
field still None — the None is propagated upward instead of the
"Unknown" sentinel the claim promises for a failed fetch. -/
theorem c8_counterexample_none_mac_propagates :
    check_ip_is_gramofon oracleNoMac "192.168.1.5" =
      some { ip := "192.168.1.5", session_id := some (.str "S"),
             name := some (.str "X"), mac := none, status := none } := rfl

/-- Helper: what the MAC step writes — nothing when the call failed or
returned a falsy payload, and the payload's fonmac field (defaulting
to "Unknown") when the call returned a truthy object. -/
theorem infoMacStep_spec (o : Oracle) (st st' : DevState)
    (h : infoMacStep o st = .ok st') :
    (device_call o st "mfgd" "get_fonmac" (some (.obj [])) 5 = none → st' = st) ∧
    (∀ kvs, device_call o st "mfgd" "get_fonmac" (some (.obj [])) 5 = some (.obj kvs) →
      pyTruthy (.obj kvs) = true →
      st' = { st with mac := some ((jGet kvs "fonmac").getD (.str "Unknown")) }) := by
  unfold infoMacStep at h
  split at h
  next heq =>
    refine ⟨fun _ => (Except.ok.inj h).symm, fun kvs hkvs _ => ?_⟩
    rw [heq] at hkvs
    exact Option.noConfusion hkvs
  next j heq =>
    split at h
    next htr =>
      split at h
      · exact absurd h (by simp)
      next v hv =>
        refine ⟨fun hnone => ?_, fun kvs hkvs _ => ?_⟩
        · rw [heq] at hnone
          exact Option.noConfusion hnone
        · rw [heq] at hkvs
          cases Option.some.inj hkvs
          unfold pyDictGetD at hv
          cases Except.ok.inj hv
          exact (Except.ok.inj h).symm
    next htr =>
      refine ⟨fun _ => (Except.ok.inj h).symm, fun kvs hkvs htru => ?_⟩
      rw [heq] at hkvs
      cases Option.some.inj hkvs
      exact absurd htru htr

/-- C8 (amended): on every Found probe the name field is set (so a
None name is never propagated), and the MAC field is written only when
the MAC fetch returned a truthy payload, in which case it is the
payload's fonmac value defaulting to the "Unknown" sentinel; when the
MAC fetch fails, the MAC field keeps its prior value None, and that
None is what propagates upward. -/
theorem c8_unknown_only_for_missing_key (o : Oracle) (ip : String) (st : DevState)
    (h : check_ip_is_gramofon o ip = some st) :
    st.name.isSome = true ∧
    ∃ st1, st1.mac = none ∧ infoMacStep o st1 = .ok st ∧
      (device_call o st1 "mfgd" "get_fonmac" (some (.obj [])) 5 = none → st.mac = none) ∧
      (∀ kvs, device_call o st1 "mfgd" "get_fonmac" (some (.obj [])) 5 = some (.obj kvs) →
        pyTruthy (.obj kvs) = true →
        st.mac = some ((jGet kvs "fonmac").getD (.str "Unknown"))) := by
  unfold check_ip_is_gramofon at h
  split at h
  · exact Option.noConfusion h
  · exact Option.noConfusion h
  next st1 hL =>
    split at h
    · exact Option.noConfusion h
    next b st2 hG =>
      split at h
      case isFalse => exact Option.noConfusion h
      case isTrue hb =>
        cases Option.some.inj h
        subst hb
        have hmac1 : st1.mac = none := by
          have := device_login_mac o (initDev ip) "admin" "admin"
          rw [hL] at this
          exact this
        unfold device_get_info at hG
        cases hName : infoNameStep o st1 with
        | error e =>
          rw [hName] at hG
          exact Except.noConfusion (congrArg Prod.fst hG)
        | ok stN =>
          rw [hName] at hG
          dsimp only at hG
          cases hMac : infoMacStep o stN with
          | error e =>
            rw [hMac] at hG
            exact Except.noConfusion (congrArg Prod.fst hG)
          | ok stm2 =>
            rw [hMac] at hG
            have hpair := Prod.mk.inj hG
            have hb2 : stm2.name.isSome = true := Except.ok.inj hpair.1
            cases hpair.2
            have hmacN : stN.mac = none :=
              ((infoNameStep_ip_mac o st1 stN hName).2).trans hmac1
            have hspec := infoMacStep_spec o stN st hMac
            refine ⟨hb2, stN, hmacN, hMac, fun hnone => ?_, fun kvs hkvs htru => ?_⟩
            · rw [hspec.1 hnone]
              exact hmacN
            · rw [hspec.2 kvs hkvs htru]

/-- C8 witness: the amended statement instantiated at a fully
successful probe of 192.168.1.5. -/
theorem c8_witness :
    devFull.name.isSome = true ∧
    ∃ st1, st1.mac = none ∧ infoMacStep oracleFull st1 = .ok devFull ∧
      (device_call oracleFull st1 "mfgd" "get_fonmac" (some (.obj [])) 5 = none →
        devFull.mac = none) ∧
      (∀ kvs, device_call oracleFull st1 "mfgd" "get_fonmac" (some (.obj [])) 5 =
          some (.obj kvs) →
        pyTruthy (.obj kvs) = true →
        devFull.mac = some ((jGet kvs "fonmac").getD (.str "Unknown"))) :=
  c8_unknown_only_for_missing_key oracleFull "192.168.1.5" devFull rfl

/-- C5: when the login call's transport-level result reports status 0
with a payload that is absent or a JSON object, login succeeds and
returns the session token exactly when the payload contains the sid
field (the token is stored as the new session id); when the sid field
is absent, login raises the AuthError-style GramofonAPIError instead
of succeeding, leaving the client unchanged. -/
theorem c5_login_token_iff_sid (u p : String) (st : ClientState) (t : COracle)
    (payload : Option Json)
    (hcall : Client.call st "session" "login" (some (loginParams u p)) t = .ok payload)
    (hshape : payload = none ∨ ∃ kvs, payload = some (.obj kvs)) :
    (∃ kvs v, payload = some (.obj kvs) ∧ jGet kvs "sid" = some v ∧
       Client.login u p st t = (.okL v, { st with session_id := some v })) ∨
    ((payload = none ∨ ∃ kvs, payload = some (.obj kvs) ∧ jGet kvs "sid" = none) ∧
       Client.login u p st t = (.authError, st)) := by
  unfold Client.login
  rw [hcall]
  rcases hshape with rfl | ⟨kvs, rfl⟩
  · exact Or.inr ⟨Or.inl rfl, rfl⟩
  · cases hkvs : kvs with
    | nil =>
      refine Or.inr ⟨Or.inr ⟨[], rfl, rfl⟩, ?_⟩
      subst hkvs
      rfl
    | cons kv rest =>
      subst hkvs
      cases hsid : jGet (kv :: rest) "sid" with
      | none =>
        refine Or.inr ⟨Or.inr ⟨kv :: rest, rfl, hsid⟩, ?_⟩
        dsimp only [pyTruthy, pyIn]
        rw [hsid]
        rfl
      | some v =>
        refine Or.inl ⟨kv :: rest, v, rfl, hsid, ?_⟩
        dsimp only [pyTruthy, pyIn, pyGetItem]
        rw [hsid]
        rfl

/-- C5 witness: the statement instantiated at a transport whose login
response reports status 0 and carries the session id "S". -/
theorem c5_witness :
    (∃ kvs v, (some (Json.obj [("sid", Json.str "S")]) : Option Json) = some (.obj kvs) ∧
       jGet kvs "sid" = some v ∧
       Client.login "admin" "admin" client0 tLoginOk =
         (.okL v, { client0 with session_id := some v })) ∨
    (((some (Json.obj [("sid", Json.str "S")]) : Option Json) = none ∨
       ∃ kvs, (some (Json.obj [("sid", Json.str "S")]) : Option Json) = some (.obj kvs) ∧
         jGet kvs "sid" = none) ∧
       Client.login "admin" "admin" client0 tLoginOk = (.authError, client0)) :=
  c5_login_token_iff_sid "admin" "admin" client0 tLoginOk
    (some (Json.obj [("sid", Json.str "S")])) rfl (Or.inr ⟨_, rfl⟩)

/-- Helper: decoding a body whose error field is an object raises the
remote error carrying that object's code and message fields. -/
theorem client_decode_error_field (kvs ekvs : List (String × Json))
    (hE : jGet kvs "error" = some (.obj ekvs)) :
    Client.decode (.obj kvs) = .remoteError (jGet ekvs "code") (jGet ekvs "message") := by
  unfold Client.decode
  dsimp only
  rw [hE]

/-- Helper: decoding a body without an error field and with a nonempty
list result is governed by the status code in its first element. -/
theorem client_decode_status (kvs : List (String × Json)) (x : Json)
    (rest : List Json) (hE : jGet kvs "error" = none)
    (hR : jGet kvs "result" = some (.arr (x :: rest))) :
    Client.decode (.obj kvs) =
      if pyEqZero x then .ok rest.head? else .statusError x := by
  unfold Client.decode
  dsimp only
  rw [hE, hR]

/-- Helper: decoding a body without an error field and with an absent
or empty result succeeds with no payload. -/
theorem client_decode_empty (kvs : List (String × Json))
    (hE : jGet kvs "error" = none)
    (hR : jGet kvs "result" = none ∨ jGet kvs "result" = some (.arr [])) :
    Client.decode (.obj kvs) = .ok none := by
  unfold Client.decode
  dsimp only
  rcases hR with hR | hR <;> rw [hE, hR]

/-- C3: for every decoded JSON-RPC response (an object whose error
field, when present, is an object, and whose result field, when
present, is an array), the transport call _call fails exactly when the
response contains an error field (raising the GramofonAPIError that
carries the error's code and message) or the first element of result
is nonzero (raising the GramofonAPIError that carries that code);
otherwise it succeeds, returning the second element of result when
present and an empty payload (None) when absent. -/
theorem c3_call_failure_iff (st : ClientState) (module method : String)
    (params : Option Json) (kvs : List (String × Json))
    (herr : ∀ e, jGet kvs "error" = some e → ∃ ekvs, e = .obj ekvs)
    (hres : ∀ r, jGet kvs "result" = some r → ∃ xs, r = .arr xs) :
    Client.call st module method params (fun _ _ _ => .resp true (some (.obj kvs))) =
      Client.decode (.obj kvs) ∧
    ((∃ q, Client.decode (.obj kvs) = .ok q) ↔
      (jGet kvs "error" = none ∧
       ∀ x rest, jGet kvs "result" = some (.arr (x :: rest)) → pyEqZero x = true)) ∧
    (∀ ekvs, jGet kvs "error" = some (.obj ekvs) →
      Client.decode (.obj kvs) = .remoteError (jGet ekvs "code") (jGet ekvs "message")) ∧
    (∀ x rest, jGet kvs "result" = some (.arr (x :: rest)) → pyEqZero x = false →
      jGet kvs "error" = none → Client.decode (.obj kvs) = .statusError x) ∧
    (∀ x rest, jGet kvs "result" = some (.arr (x :: rest)) → pyEqZero x = true →
      jGet kvs "error" = none → Client.decode (.obj kvs) = .ok rest.head?) ∧
    ((jGet kvs "result" = none ∨ jGet kvs "result" = some (.arr [])) →
      jGet kvs "error" = none → Client.decode (.obj kvs) = .ok none) := by
  refine ⟨rfl, ?_, ?_, ?_, ?_, ?_⟩
  · constructor
    · rintro ⟨q, hq⟩
      cases hE : jGet kvs "error" with
      | some e =>
        obtain ⟨ekvs, rfl⟩ := herr e hE
        rw [client_decode_error_field kvs ekvs hE] at hq
        exact CRes.noConfusion hq
      | none =>
        refine ⟨rfl, fun x rest hR => ?_⟩
        by_cases hz : pyEqZero x = true
        · exact hz
        · rw [client_decode_status kvs x rest hE hR] at hq
          rw [if_neg hz] at hq
          exact absurd hq (by simp)
    · rintro ⟨hE, hz⟩
      cases hR : jGet kvs "result" with
      | none => exact ⟨none, client_decode_empty kvs hE (Or.inl hR)⟩
      | some r =>
        obtain ⟨xs, rfl⟩ := hres r hR
        cases xs with
        | nil => exact ⟨none, client_decode_empty kvs hE (Or.inr hR)⟩
        | cons x rest =>
          refine ⟨rest.head?, ?_⟩
          rw [client_decode_status kvs x rest hE hR, if_pos (hz x rest hR)]
  · exact fun ekvs hE => client_decode_error_field kvs ekvs hE
  · intro x rest hR hz hE
    rw [client_decode_status kvs x rest hE hR, if_neg (by simp [hz])]
  · intro x rest hR hz hE
    rw [client_decode_status kvs x rest hE hR, if_pos hz]
  · exact fun hR hE => client_decode_empty kvs hE hR

/-- C3 witness: a response with status 0 and a payload succeeds with
that payload, through the call equation and the success clause of the
theorem at a concrete response. -/
theorem c3_witness :
    Client.decode (.obj [("result", Json.arr [.num 0, .num 7])]) =
      .ok (some (.num 7)) :=
  ((c3_call_failure_iff client0 "anet" "status" none
      [("result", Json.arr [.num 0, .num 7])]
      (fun _ h => Option.noConfusion h)
      (fun _ h => ⟨[.num 0, .num 7], (Option.some.inj h).symm⟩)).2.2.2.2.1)
    (.num 0) [.num 7] rfl rfl rfl

/-- Helper: a filterMap keeps exactly as many elements as there are
inputs on which the function answers. -/
theorem length_filterMap_eq_length_filter {α β : Type} (f : α → Option β)
    (l : List α) :
    (l.filterMap f).length = (l.filter (fun a => (f a).isSome)).length := by
  induction l with
  | nil => rfl
  | cons a l ih =>
    cases h : f a <;> simp [List.filterMap_cons, List.filter_cons, h, ih]

/-- C7: for every valid range and every assignment of probe outcomes,
the device list returned by scan_network is, up to the completion
order of the probes, exactly the list of summaries of the addresses
whose probe returned Found — one entry per Found address, nothing for
NotFound addresses — and its length is the number of Found addresses,
whatever completion order as_completed produces. -/
theorem c7_found_matches_probes (probe : String → Option DevState)
    (order : List Nat) (network : String) (base p : Nat)
    (hnet : parseNet network = some (base, p))
    (hord : order.Perm (hostsList base p)) :
    ∃ r, scan_network probe order network = Except.ok r ∧
      r.found.Perm ((hostsList base p).filterMap (fun ip => probe (natToIpStr ip))) ∧
      r.found.length =
        ((hostsList base p).filter (fun ip => (probe (natToIpStr ip)).isSome)).length := by
  unfold scan_network
  rw [hnet]
  refine ⟨_, rfl, ?_, ?_⟩
  · exact hord.filterMap _
  · rw [(hord.filterMap _).length_eq]
    exact length_filterMap_eq_length_filter _ _

/-- C7 witness: scanning 192.168.1.0/28 (14 usable hosts) against a
probe that answers for 192.168.1.5 and 192.168.1.9 only yields exactly
two entries, here with the completion order reversed with respect to
the dispatch order. -/
theorem c7_witness :
    ∃ r, scan_network probeTwo ((hostsList 3232235776 28).reverse)
        "192.168.1.0/28" = Except.ok r ∧ r.found.length = 2 := by
  obtain ⟨r, h1, _, h3⟩ := c7_found_matches_probes probeTwo
    ((hostsList 3232235776 28).reverse) "192.168.1.0/28" 3232235776 28 rfl
    (List.reverse_perm _)
  exact ⟨r, h1, h3.trans (by rfl)⟩
